import Mathlib

/-!
Verification of the lobechat-memory-mcp bridges.

The repository holds five near-duplicate adapter programs over one upstream
memory API:
 - `v1` : the first program in `src/server.js` (REST + OpenAPI discovery);
 - `v2` : the second program in `src/server.js` (stdio MCP tool server);
 - `v3` : the third program in `src/server.js` (simplified `POST /tools/call`
          plus the legacy `POST /api/tools` action dispatcher);
 - `p0` : `src/unnamed/part_000` (CORS-hardened REST adapter, the only one
          validating the search query);
 - `p1` : `src/unnamed/part_001` (JSON-RPC over SSE with a `/message`
          endpoint and a keep-alive connection registry).

Upstream calls are embedded by passing an oracle `up : UpstreamReq →
UpstreamResult`; a handler's single interaction with the network is the one
application of `up` in its body.  `node-fetch` does not throw on non-2xx
statuses, so an upstream reply carries both the status and the outcome of
`response.json()`.
-/

/-- A memory record as returned by the upstream store: `{category, content}`. -/
structure MemoryRecord where
  category : String
  content : String
deriving DecidableEq, Repr

/-- The upstream response shape `{count, memories}`.  Either field may be
absent from the JSON, hence the `Option`s; the handlers guard with
`data.count || 0` and (mostly) `data.memories || []`. -/
structure MemoryBatch where
  count : Option Nat
  memories : Option (List MemoryRecord)
deriving DecidableEq, Repr

/-- The own properties of `Object.prototype` (ES2023, including the Annex B
accessors).  A category equal to one of these hits the prototype chain in
`if (!byCategory[mem.category])`: the inherited value is truthy, so the
guard is skipped and `byCategory[mem.category].push(...)` throws a
`TypeError` (neither a function nor `Object.prototype` has a `push`
method). -/
def protoProps : List String :=
  ["constructor", "hasOwnProperty", "isPrototypeOf", "propertyIsEnumerable",
   "toLocaleString", "toString", "valueOf",
   "__proto__", "__defineGetter__", "__defineSetter__",
   "__lookupGetter__", "__lookupSetter__"]

/-- Parse a nonempty all-ASCII-digit string as a natural number (the digit
test JavaScript applies to candidate array-index keys). -/
def decimalNat? (s : String) : Option Nat :=
  if s.data ≠ [] ∧ s.data.all Char.isDigit then
    some (s.data.foldl (fun n c => n * 10 + (c.toNat - 48)) 0)
  else none

/-- Whether a string is a canonical array-index key in the sense of
ECMAScript `OrdinaryOwnPropertyKeys`: the decimal numeral of some
`n < 2^32 - 1` with no leading zeros. -/
def isCanonicalIndex (s : String) : Option Nat :=
  match decimalNat? s with
  | none => none
  | some n => if s = toString n ∧ n < 4294967295 then some n else none

/-- Upper-casing as applied to category headers (`cat.toUpperCase()`);
ASCII case folding, which coincides with JavaScript on the ASCII category
tokens this store uses. -/
def jsToUpper (s : String) : String :=
  String.mk (s.data.map Char.toUpper)

/-- One step of the `byCategory` accumulation loop of the summary builders
(`src/server.js` lines 210-216 and duplicates): append `content` to the
category's list if the key is already present; otherwise create it — unless
the category collides with an `Object.prototype` property name, in which
case the JavaScript code throws a `TypeError` (message approximated). -/
def addRecord (acc : List (String × List String)) (r : MemoryRecord) :
    Except String (List (String × List String)) :=
  if acc.any (fun e => e.1 == r.category) then
    Except.ok (acc.map (fun e =>
      if e.1 == r.category then (e.1, e.2 ++ [r.content]) else e))
  else if protoProps.contains r.category then
    Except.error "TypeError: byCategory is not a function"
  else
    Except.ok (acc ++ [(r.category, [r.content])])

/-- The `byCategory` object after the scan, as an insertion-ordered
association list of own properties. -/
def groupByCategory (ms : List MemoryRecord) :
    Except String (List (String × List String)) :=
  ms.foldlM addRecord []

/-- Insert an index-keyed entry into an ascending-by-index list. -/
def insertByIdx (e : Nat × (String × List String)) :
    List (Nat × (String × List String)) → List (Nat × (String × List String))
  | [] => [e]
  | x :: xs => if e.1 < x.1 then e :: x :: xs else x :: insertByIdx e xs

/-- Sort index-keyed entries ascending by index. -/
def sortByIdx (l : List (Nat × (String × List String))) :
    List (Nat × (String × List String)) :=
  l.foldr insertByIdx []

/-- Model of `Object.entries` on the `byCategory` object: per ECMAScript
`OrdinaryOwnPropertyKeys`, array-index keys come first in ascending numeric
order, then the remaining string keys in insertion order. -/
def jsEntries (g : List (String × List String)) : List (String × List String) :=
  (sortByIdx (g.filterMap
      (fun e => (isCanonicalIndex e.1).map (fun n => (n, e))))).map Prod.snd
    ++ g.filter (fun e => (isCanonicalIndex e.1).isNone)

/-- Render one category group: upper-cased header, then one line per content
string with a bullet in front (the mapped template of the source). -/
def renderGroup (e : String × List String) : String :=
  jsToUpper e.1 ++ ":\n" ++ String.intercalate "\n" (e.2.map (fun f => "- " ++ f))

/-- The categorized summary body shared (verbatim) by all five programs:
group by category, render each group, join groups with blank lines. -/
def buildSummaryBody (ms : List MemoryRecord) : Except String String := do
  let g ← groupByCategory ms
  pure (String.intercalate "\n\n" ((jsEntries g).map renderGroup))

/-- Grouping step exactly as the claim and spec word it: append to the
category's list, creating it on first sight, first-seen order. -/
def specStep (acc : List (String × List String)) (r : MemoryRecord) :
    List (String × List String) :=
  if acc.any (fun e => e.1 == r.category) then
    acc.map (fun e =>
      if e.1 == r.category then (e.1, e.2 ++ [r.content]) else e)
  else
    acc ++ [(r.category, [r.content])]

/-- First-seen-order grouping as the claim words it. -/
def specGroup (ms : List MemoryRecord) : List (String × List String) :=
  ms.foldl specStep []

/-- The summary body as the claim words it: categories strictly in order of
first occurrence. -/
def specSummaryBody (ms : List MemoryRecord) : String :=
  String.intercalate "\n\n" ((specGroup ms).map renderGroup)

/-- A category label that behaves as a plain object key: neither a canonical
array index (which `Object.entries` hoists to the front in numeric order)
nor an `Object.prototype` property name (on which the builder throws). -/
def plainKey (c : String) : Bool :=
  (isCanonicalIndex c).isNone && !(protoProps.contains c)

/-- A request issued to the upstream memory API.  `recent` is
`GET {base}/api/recent?user_id=…&limit=…`, `search` is
`GET {base}/api/search?q=…&user_id=…`.  A `none` component stands for a
JavaScript `undefined` interpolated into the URL; the limit is kept as the
interpolated string.  URI-encoding of the query (applied by some variants,
skipped by the stdio one) is a wire-level detail not modelled. -/
inductive UpstreamReq where
  | recent (userId : Option String) (limit : String)
  | search (q : Option String) (userId : Option String)
deriving DecidableEq, Repr

/-- Outcome of `await fetch(...)` followed by `await response.json()`:
either the transport throws (`netError`), or the upstream replies with some
HTTP status and a body whose JSON parse either fails (also a throw at
`response.json()`) or yields a batch.  `node-fetch` does not throw on
non-2xx statuses. -/
inductive UpstreamResult where
  | netError (msg : String)
  | reply (status : Nat) (body : Except String MemoryBatch)

/-- A JSON error body.  `success = some false` models `{success:false,
error}`; `success = none` models a bare `{error}` body with no `success`
key (as `JSON.stringify` drops nothing here — the field is simply not
written by the code). -/
structure ErrBody where
  success : Option Bool
  error : String
deriving DecidableEq, Repr

/-- An HTTP route outcome: `res.json(...)` at 200 with a success payload,
or `res.status(st).json(...)` with an error body. -/
inductive RouteResult (α : Type) where
  | success (status : Nat) (val : α)
  | failure (status : Nat) (body : ErrBody)
deriving DecidableEq, Repr

/-- Success payload of the REST summary routes:
`{success:true, summary, totalMemories}`. -/
structure SummaryOk where
  success : Bool
  summary : String
  totalMemories : Nat
deriving DecidableEq, Repr

/-- Success payload of the REST search routes:
`{success:true, query, count, memories}`. -/
structure SearchOk where
  success : Bool
  query : Option String
  count : Nat
  memories : List MemoryRecord
deriving DecidableEq, Repr

/-- Success payload of the REST recent-memories routes:
`{success:true, count, memories}`. -/
structure ListOk where
  success : Bool
  count : Nat
  memories : List MemoryRecord
deriving DecidableEq, Repr

/-! ### v1: first program of src/server.js (REST + OpenAPI) -/

/-- `GET /api/summary/:userId` of v1, response side (src/server.js lines
208-231): parse, group by category, fall back to the literal on an empty
body, catch → `res.status(500).json({error})` (note: no `success` field). -/
def summaryResp_v1 (u : UpstreamResult) : RouteResult SummaryOk :=
  match u with
  | .netError m => .failure 500 ⟨none, m⟩
  | .reply _ (.error m) => .failure 500 ⟨none, m⟩
  | .reply _ (.ok b) =>
    match buildSummaryBody (b.memories.getD []) with
    | .error m => .failure 500 ⟨none, m⟩
    | .ok s =>
      .success 200 ⟨true, if s = "" then "No memories found" else s,
        b.count.getD 0⟩

/-- `GET /api/summary/:userId` of v1 (src/server.js lines 200-232): one
fetch of the recent batch at `limit=50`, then the response mapping. -/
def summaryRoute_v1 (userId : String)
    (up : UpstreamReq → UpstreamResult) : RouteResult SummaryOk :=
  summaryResp_v1 (up (.recent (some userId) "50"))

/-- `GET /api/search/:userId` of v1, response side (src/server.js lines
244-256). -/
def searchResp_v1 (q : Option String) (u : UpstreamResult) :
    RouteResult SearchOk :=
  match u with
  | .netError m => .failure 500 ⟨none, m⟩
  | .reply _ (.error m) => .failure 500 ⟨none, m⟩
  | .reply _ (.ok b) =>
    .success 200 ⟨true, q, b.count.getD 0, b.memories.getD []⟩

/-- `GET /api/search/:userId` of v1 (src/server.js lines 234-257): no
validation of `q` — the fetch is issued even when `q` is empty or
missing (an absent `q` is interpolated as `undefined`). -/
def searchRoute_v1 (userId : String) (q : Option String)
    (up : UpstreamReq → UpstreamResult) : RouteResult SearchOk :=
  searchResp_v1 q (up (.search q (some userId)))

/-- `GET /api/memories/:userId` of v1, response side (src/server.js lines
269-280). -/
def memoriesResp_v1 (u : UpstreamResult) : RouteResult ListOk :=
  match u with
  | .netError m => .failure 500 ⟨none, m⟩
  | .reply _ (.error m) => .failure 500 ⟨none, m⟩
  | .reply _ (.ok b) =>
    .success 200 ⟨true, b.count.getD 0, b.memories.getD []⟩

/-- `GET /api/memories/:userId` of v1 (src/server.js lines 259-281):
`limit` is the query parameter string, defaulting to 20. -/
def memoriesRoute_v1 (userId : String) (limit : Option String)
    (up : UpstreamReq → UpstreamResult) : RouteResult ListOk :=
  memoriesResp_v1 (up (.recent (some userId) (limit.getD "20")))

/-! ### p0: src/unnamed/part_000 (CORS-hardened REST adapter) -/

/-- `GET /api/summary/:userId` of p0, response side (part_000 lines
227-253): as v1 but the catch writes `{success:false, error}`. -/
def summaryResp_p0 (u : UpstreamResult) : RouteResult SummaryOk :=
  match u with
  | .netError m => .failure 500 ⟨some false, m⟩
  | .reply _ (.error m) => .failure 500 ⟨some false, m⟩
  | .reply _ (.ok b) =>
    match buildSummaryBody (b.memories.getD []) with
    | .error m => .failure 500 ⟨some false, m⟩
    | .ok s =>
      .success 200 ⟨true, if s = "" then "No memories found" else s,
        b.count.getD 0⟩

/-- `GET /api/summary/:userId` of p0 (part_000 lines 219-254). -/
def summaryRoute_p0 (userId : String)
    (up : UpstreamReq → UpstreamResult) : RouteResult SummaryOk :=
  summaryResp_p0 (up (.recent (some userId) "50"))

/-- `GET /api/search/:userId` of p0, response side (part_000 lines
270-288). -/
def searchResp_p0 (q : Option String) (u : UpstreamResult) :
    RouteResult SearchOk :=
  match u with
  | .netError m => .failure 500 ⟨some false, m⟩
  | .reply _ (.error m) => .failure 500 ⟨some false, m⟩
  | .reply _ (.ok b) =>
    .success 200 ⟨true, q, b.count.getD 0, b.memories.getD []⟩

/-- `GET /api/search/:userId` of p0 (part_000 lines 256-289): `if (!q)`
rejects an absent or empty query with 400 before any fetch. -/
def searchRoute_p0 (userId : String) (q : Option String)
    (up : UpstreamReq → UpstreamResult) : RouteResult SearchOk :=
  if q.getD "" = "" then
    .failure 400 ⟨some false, "Missing query parameter: q"⟩
  else
    searchResp_p0 q (up (.search q (some userId)))

/-- `GET /api/memories/:userId` of p0, response side (part_000 lines
301-315). -/
def memoriesResp_p0 (u : UpstreamResult) : RouteResult ListOk :=
  match u with
  | .netError m => .failure 500 ⟨some false, m⟩
  | .reply _ (.error m) => .failure 500 ⟨some false, m⟩
  | .reply _ (.ok b) =>
    .success 200 ⟨true, b.count.getD 0, b.memories.getD []⟩

/-- `GET /api/memories/:userId` of p0 (part_000 lines 291-316). -/
def memoriesRoute_p0 (userId : String) (limit : Option String)
    (up : UpstreamReq → UpstreamResult) : RouteResult ListOk :=
  memoriesResp_p0 (up (.recent (some userId) (limit.getD "20")))

/-! ### Tool-call argument and content shapes -/

/-- The `arguments` object of a tool call; each field may be absent. -/
structure ToolArgs where
  user_id : Option String
  limit : Option Nat
  query : Option String
deriving DecidableEq, Repr

/-- Content of a tool result.  `memJson` stands for
`JSON.stringify(data.memories, null, 2)` — the pretty-printed JSON text is
kept structurally as the serialized value rather than re-implementing the
serializer; `text` is a literal template string. -/
inductive McpContent where
  | memJson (memories : Option (List MemoryRecord))
  | text (s : String)
deriving DecidableEq, Repr

/-- Interpolation of a possibly-undefined string into a template literal. -/
def jsStr (o : Option String) : String := o.getD "undefined"

/-- Interpolation of a possibly-undefined number into a template literal. -/
def jsNatStr (o : Option Nat) : String :=
  match o with
  | some n => toString n
  | none => "undefined"

/-! ### p1: src/unnamed/part_001 (JSON-RPC over SSE, `POST /message`) -/

/-- The `result` payloads of p1's `/message` endpoint: the static
`initialize` payload, the static tools list, or a tool-call content. -/
inductive RpcResultVal where
  | initResult
  | toolsList
  | content (c : McpContent)
deriving DecidableEq, Repr

/-- A `POST /message` response: always HTTP 200, carrying either a JSON-RPC
`result` or a JSON-RPC `error` object. -/
inductive RpcOut where
  | result (r : RpcResultVal)
  | rpcError (code : Int) (message : String)
deriving DecidableEq, Repr

/-- p1 `get_user_memories` response side (part_001 lines 160-169). -/
def recentToolResp_p1 (u : UpstreamResult) : RpcOut :=
  match u with
  | .netError m => .rpcError (-32603) m
  | .reply _ (.error m) => .rpcError (-32603) m
  | .reply _ (.ok b) => .result (.content (.memJson b.memories))

/-- p1 `search_memories` response side (part_001 lines 177-186). -/
def searchToolResp_p1 (u : UpstreamResult) : RpcOut :=
  match u with
  | .netError m => .rpcError (-32603) m
  | .reply _ (.error m) => .rpcError (-32603) m
  | .reply _ (.ok b) => .result (.content (.memJson b.memories))

/-- p1 `get_memory_summary` response side (part_001 lines 194-216): the
summary body wrapped as
`User Memory Summary:\n\n…\n\nTotal memories: ${data.count || 0}`. -/
def summaryToolResp_p1 (u : UpstreamResult) : RpcOut :=
  match u with
  | .netError m => .rpcError (-32603) m
  | .reply _ (.error m) => .rpcError (-32603) m
  | .reply _ (.ok b) =>
    match buildSummaryBody (b.memories.getD []) with
    | .error m => .rpcError (-32603) m
    | .ok s =>
      .result (.content (.text ("User Memory Summary:\n\n" ++ s ++
        "\n\nTotal memories: " ++ toString (b.count.getD 0))))

/-- The `POST /message` dispatcher of p1 (part_001 lines 70-248): method
dispatch, then tool dispatch; any throw — including the explicit
`Unknown tool` / `Unknown method` throws — is caught and answered with a
JSON-RPC error object `{code: -32603, message}` at HTTP 200. -/
def messageHandler_p1 (method : String) (name : String) (args : ToolArgs)
    (up : UpstreamReq → UpstreamResult) : RpcOut :=
  if method = "initialize" then .result .initResult
  else if method = "tools/list" then .result .toolsList
  else if method = "tools/call" then
    if name = "get_user_memories" then
      recentToolResp_p1 (up (.recent args.user_id
        (toString (args.limit.getD 20))))
    else if name = "search_memories" then
      searchToolResp_p1 (up (.search args.query args.user_id))
    else if name = "get_memory_summary" then
      summaryToolResp_p1 (up (.recent args.user_id "50"))
    else .rpcError (-32603) ("Unknown tool: " ++ name)
  else .rpcError (-32603) ("Unknown method: " ++ method)

/-! ### v2: second program of src/server.js (stdio MCP server) -/

/-- A stdio tool-call result: a content item plus the `isError` flag. -/
structure StdioOut where
  content : McpContent
  isError : Bool
deriving DecidableEq, Repr

/-- Message of the TypeError raised by v2's summary when `data.memories`
is undefined (`for (const mem of data.memories)` has no `|| []` guard in
src/server.js line 434); wording approximated. -/
def iterTypeError : String := "TypeError: data.memories is not iterable"

/-- v2 `get_user_memories` response side (src/server.js lines 398-407). -/
def recentToolResp_v2 (u : UpstreamResult) : StdioOut :=
  match u with
  | .netError m => ⟨.text ("Error: " ++ m), true⟩
  | .reply _ (.error m) => ⟨.text ("Error: " ++ m), true⟩
  | .reply _ (.ok b) => ⟨.memJson b.memories, false⟩

/-- v2 `search_memories` response side (src/server.js lines 414-423). -/
def searchToolResp_v2 (u : UpstreamResult) : StdioOut :=
  match u with
  | .netError m => ⟨.text ("Error: " ++ m), true⟩
  | .reply _ (.error m) => ⟨.text ("Error: " ++ m), true⟩
  | .reply _ (.ok b) => ⟨.memJson b.memories, false⟩

/-- v2 `get_memory_summary` response side (src/server.js lines 430-459):
unlike the other variants there is no `|| []` guard on `data.memories` and
no `|| 0` on `data.count`, and the template literal keeps its source
indentation (leading newline, trailing `\n` plus six spaces). -/
def summaryToolResp_v2 (user_id : Option String) (u : UpstreamResult) :
    StdioOut :=
  match u with
  | .netError m => ⟨.text ("Error: " ++ m), true⟩
  | .reply _ (.error m) => ⟨.text ("Error: " ++ m), true⟩
  | .reply _ (.ok b) =>
    match b.memories with
    | none => ⟨.text ("Error: " ++ iterTypeError), true⟩
    | some ms =>
      match buildSummaryBody ms with
      | .error m => ⟨.text ("Error: " ++ m), true⟩
      | .ok s =>
        ⟨.text ("\nUser Memory Summary for " ++ jsStr user_id ++ ":\n\n" ++
          s ++ "\n\nTotal memories: " ++ jsNatStr b.count ++ "\n      "),
         false⟩

/-- The stdio tool-call dispatcher of v2 (src/server.js lines 389-481):
an unrecognized tool name yields an `isError:true` content result, not a
fault. -/
def callTool_v2 (name : String) (args : ToolArgs)
    (up : UpstreamReq → UpstreamResult) : StdioOut :=
  if name = "get_user_memories" then
    recentToolResp_v2 (up (.recent args.user_id
      (toString (args.limit.getD 20))))
  else if name = "search_memories" then
    searchToolResp_v2 (up (.search args.query args.user_id))
  else if name = "get_memory_summary" then
    summaryToolResp_v2 args.user_id (up (.recent args.user_id "50"))
  else ⟨.text ("Unknown tool: " ++ name), true⟩

/-! ### v3: third program of src/server.js (simplified tools + /api/tools) -/

/-- v3 `get_memory_summary` branch of `POST /tools/call`, response side
(src/server.js lines 609-628); errors fall to the catch block, which is
`res.status(500).json({error})` — no `success` field. -/
def summaryToolResp_v3 (u : UpstreamResult) : RouteResult String :=
  match u with
  | .netError m => .failure 500 ⟨none, m⟩
  | .reply _ (.error m) => .failure 500 ⟨none, m⟩
  | .reply _ (.ok b) =>
    match buildSummaryBody (b.memories.getD []) with
    | .error m => .failure 500 ⟨none, m⟩
    | .ok s =>
      .success 200 ("User Memory Summary:\n\n" ++ s ++ "\n\nTotal: " ++
        toString (b.count.getD 0) ++ " memories")

/-- v3 `search_memories` branch of `POST /tools/call`, response side
(src/server.js lines 631-643). -/
def searchToolResp_v3 (u : UpstreamResult) : RouteResult String :=
  match u with
  | .netError m => .failure 500 ⟨none, m⟩
  | .reply _ (.error m) => .failure 500 ⟨none, m⟩
  | .reply _ (.ok b) =>
    .success 200 ("Found " ++ toString (b.count.getD 0) ++ " memories:\n\n"
      ++ String.intercalate "\n" ((b.memories.getD []).map
        (fun r => "- [" ++ r.category ++ "] " ++ r.content)))

/-- v3 `get_user_memories` branch of `POST /tools/call`, response side
(src/server.js lines 645-657). -/
def recentToolResp_v3 (u : UpstreamResult) : RouteResult String :=
  match u with
  | .netError m => .failure 500 ⟨none, m⟩
  | .reply _ (.error m) => .failure 500 ⟨none, m⟩
  | .reply _ (.ok b) =>
    .success 200 ("Recent " ++ toString (b.count.getD 0) ++ " memories:\n\n"
      ++ String.intercalate "\n" ((b.memories.getD []).map
        (fun r => "- [" ++ r.category ++ "] " ++ r.content)))

/-- The `POST /tools/call` dispatcher of v3 (src/server.js lines 599-672):
an unrecognized tool name throws `Unknown tool: ${name}`, which the catch
block turns into `res.status(500).json({error})` — an HTTP-level error. -/
def toolsCall_v3 (name : String) (args : ToolArgs)
    (up : UpstreamReq → UpstreamResult) : RouteResult String :=
  if name = "get_memory_summary" then
    summaryToolResp_v3 (up (.recent args.user_id "50"))
  else if name = "search_memories" then
    searchToolResp_v3 (up (.search args.query args.user_id))
  else if name = "get_user_memories" then
    recentToolResp_v3 (up (.recent args.user_id
      (toString (args.limit.getD 20))))
  else .failure 500 ⟨none, "Unknown tool: " ++ name⟩

/-- The `params` object of the legacy `POST /api/tools` body. -/
structure ApiToolsParams where
  user_id : Option String
  userId : Option String
deriving DecidableEq, Repr

/-- Success payload of `POST /api/tools`: `{success:true, data}` where an
`undefined` result drops the `data` key. -/
structure ApiToolsOk where
  success : Bool
  data : Option String
deriving DecidableEq, Repr

/-- JavaScript `a || b` on two possibly-absent strings (the only falsy
string is `""`), as in `const uid = user_id || userId`. -/
def jsOrStr (a b : Option String) : Option String :=
  match a with
  | some s => if s = "" then b else some s
  | none => b

/-- v3 `/api/tools` summary action, response side (src/server.js lines
687-702): note there is no `|| 'No memories found'` fallback here — an
empty batch produces `data: ""`. -/
def apiToolsSummaryResp_v3 (u : UpstreamResult) : RouteResult ApiToolsOk :=
  match u with
  | .netError m => .failure 500 ⟨some false, m⟩
  | .reply _ (.error m) => .failure 500 ⟨some false, m⟩
  | .reply _ (.ok b) =>
    match buildSummaryBody (b.memories.getD []) with
    | .error m => .failure 500 ⟨some false, m⟩
    | .ok s => .success 200 ⟨true, some s⟩

/-- The legacy `POST /api/tools` action dispatcher of v3 (src/server.js
lines 675-717): only the summary action is recognized; any other action
leaves `result` undefined and still answers
`res.json({success:true, data: undefined})`, i.e. HTTP 200 `{success:true}`
with no `data` key. -/
def apiTools_v3 (action : String) (params : ApiToolsParams)
    (up : UpstreamReq → UpstreamResult) : RouteResult ApiToolsOk :=
  if action = "get_memory_summary" ∨ action = "getMemorySummary" then
    apiToolsSummaryResp_v3
      (up (.recent (jsOrStr params.user_id params.userId) "50"))
  else .success 200 ⟨true, none⟩

/-! ### SSE connection lifecycle of p1 (`POST /sse`, part_001 lines 35-67)

The handler is event-driven; it is embedded as a transition system over the
state of one connection.  `sseOpen` is the state right after the handler
body ran: the connection id has been put into the `connections` registry
(`registered`), the keep-alive interval timer is armed (`timerActive`), and
the `initialized` JSON-RPC event has been written.  The environment then
delivers timer fires (`tick`, one per `keepAliveIntervalMs` milliseconds)
and at most one client disconnect (`close`); `close` runs the `req.on`
callback, which clears the interval and deletes the id from the registry.
A `tick` after `clearInterval` does not fire, hence writes nothing. -/

/-- A write on the SSE response stream: the one `initialized` event, or a
`: keepalive` comment. -/
inductive SseWrite where
  | initEvent
  | keepAlive
deriving DecidableEq, Repr

/-- State of one SSE connection (id fixed): registry membership, timer
armed, client gone, and the log of writes in order. -/
structure SseConn where
  registered : Bool
  timerActive : Bool
  closed : Bool
  writes : List SseWrite
deriving DecidableEq, Repr

/-- Environment events: a keep-alive timer fire, or the client disconnect. -/
inductive SseEnv where
  | tick
  | close
deriving DecidableEq, Repr

/-- The `setInterval` period of the keep-alive writes (part_001 line 59). -/
def keepAliveIntervalMs : Nat := 15000

/-- State after the `POST /sse` handler body (part_001 lines 44-59). -/
def sseOpen : SseConn := ⟨true, true, false, [SseWrite.initEvent]⟩

/-- One environment step (part_001 lines 57-66). -/
def sseStep (s : SseConn) : SseEnv → SseConn
  | SseEnv.tick =>
    if s.timerActive then { s with writes := s.writes ++ [SseWrite.keepAlive] }
    else s
  | SseEnv.close =>
    { s with timerActive := false, registered := false, closed := true }

/-- The connection state after a sequence of environment events. -/
def sseRun (evs : List SseEnv) : SseConn := evs.foldl sseStep sseOpen

/-- The write log starts with the single `initialized` event and everything
after it is a keep-alive comment. -/
def goodWrites (ws : List SseWrite) : Prop :=
  ∃ ks, ws = SseWrite.initEvent :: ks ∧ ∀ w ∈ ks, w = SseWrite.keepAlive

/-! ### Modelled-from-spec route -/

/-- Modelled from the spec: no file under `src/` implements the
`GET /api/category/:userId/:category` route (the spec's sixth adapter
variant, the SDK-over-SSE one, is absent from the sources).  Spec section 6:
the route "filters the recent batch client-side by exact category match". -/
def categoryRoute (category : String) (b : MemoryBatch) : List MemoryRecord :=
  (b.memories.getD []).filter (fun r => r.category == category)

/-! ### Concrete fixtures used by witnesses and counterexamples -/

/-- An upstream that always fails at transport level. -/
def upNetX : UpstreamReq → UpstreamResult :=
  fun _ => .netError "ECONNREFUSED"

/-- An upstream that answers every request with HTTP 404 and a JSON body
that parses as an empty batch. -/
def upOk404 : UpstreamReq → UpstreamResult :=
  fun _ => .reply 404 (.ok ⟨some 0, some []⟩)

/-- An upstream that answers every request with HTTP 200 and an empty
batch. -/
def upOkEmpty : UpstreamReq → UpstreamResult :=
  fun _ => .reply 200 (.ok ⟨some 0, some []⟩)

/-- Tool arguments with every field absent. -/
def argsNone : ToolArgs := ⟨none, none, none⟩

/-- Tool arguments carrying an empty search query. -/
def argsEmptyQ : ToolArgs := ⟨some "u", none, some ""⟩

/-- Tool arguments carrying an explicit limit of 7. -/
def args7 : ToolArgs := ⟨none, some 7, none⟩

/-- Legacy dispatcher params with both user-id spellings absent. -/
def paramsNone : ApiToolsParams := ⟨none, none⟩

theorem addRecord_plain (acc : List (String × List String)) (r : MemoryRecord)
    (h : protoProps.contains r.category = false) :
    addRecord acc r = Except.ok (specStep acc r) := by
  unfold addRecord specStep
  by_cases hc : acc.any (fun e => e.1 == r.category)
  · simp [hc]
  · simp [hc]
    simpa using h

theorem groupBy_plain (ms : List MemoryRecord)
    (h : ∀ r ∈ ms, plainKey r.category = true) :
    ∀ acc, ms.foldlM addRecord acc = Except.ok (ms.foldl specStep acc) := by
  induction ms with
  | nil => intro acc; rfl
  | cons r t ih =>
    intro acc
    have hr : plainKey r.category = true := h r (List.mem_cons_self r t)
    have hproto : protoProps.contains r.category = false := by
      simp only [plainKey, Bool.and_eq_true, Bool.not_eq_true'] at hr
      exact hr.2
    calc (r :: t).foldlM addRecord acc
        = addRecord acc r >>= fun s => t.foldlM addRecord s := rfl
      _ = t.foldlM addRecord (specStep acc r) := by
          rw [addRecord_plain acc r hproto]
          rfl
      _ = Except.ok (t.foldl specStep (specStep acc r)) :=
          ih (fun x hx => h x (List.mem_cons_of_mem r hx)) (specStep acc r)
      _ = Except.ok ((r :: t).foldl specStep acc) := rfl

theorem specStep_keys (acc : List (String × List String)) (r : MemoryRecord)
    (e : String × List String) (he : e ∈ specStep acc r) :
    e.1 ∈ acc.map Prod.fst ∨ e.1 = r.category := by
  unfold specStep at he
  by_cases hc : acc.any (fun x => x.1 == r.category)
  · rw [if_pos hc] at he
    obtain ⟨a, ha, hae⟩ := List.mem_map.mp he
    have hfst : ((if a.1 == r.category then (a.1, a.2 ++ [r.content]) else a)).1
        = a.1 := by split <;> rfl
    left
    rw [← hae, hfst]
    exact List.mem_map_of_mem Prod.fst ha
  · rw [if_neg hc] at he
    rcases List.mem_append.mp he with hmem | hmem
    · exact Or.inl (List.mem_map_of_mem Prod.fst hmem)
    · right
      have : e = (r.category, [r.content]) := by simpa using hmem
      rw [this]

theorem foldl_specStep_keys (ms : List MemoryRecord) :
    ∀ acc, ∀ e ∈ ms.foldl specStep acc,
      e.1 ∈ acc.map Prod.fst ∨ ∃ r ∈ ms, e.1 = r.category := by
  induction ms with
  | nil =>
    intro acc e he
    exact Or.inl (List.mem_map_of_mem Prod.fst he)
  | cons r t ih =>
    intro acc e he
    rcases ih (specStep acc r) e he with hmem | ⟨x, hx, hex⟩
    · obtain ⟨a, ha, hae⟩ := List.mem_map.mp hmem
      rcases specStep_keys acc r a ha with h' | h'
      · exact Or.inl (hae ▸ h')
      · exact Or.inr ⟨r, List.mem_cons_self r t, hae ▸ h'⟩
    · exact Or.inr ⟨x, List.mem_cons_of_mem r hx, hex⟩

theorem specGroup_plain_keys (ms : List MemoryRecord)
    (h : ∀ r ∈ ms, plainKey r.category = true) :
    ∀ e ∈ specGroup ms, plainKey e.1 = true := by
  intro e he
  rcases foldl_specStep_keys ms [] e he with h' | ⟨r, hr, hek⟩
  · simp at h'
  · rw [hek]
    exact h r hr

theorem jsEntries_plain (g : List (String × List String))
    (h : ∀ e ∈ g, plainKey e.1 = true) : jsEntries g = g := by
  have hnone : ∀ e ∈ g, isCanonicalIndex e.1 = none := by
    intro e he
    have hp := h e he
    simp only [plainKey, Bool.and_eq_true] at hp
    exact Option.isNone_iff_eq_none.mp hp.1
  unfold jsEntries
  have h1 : g.filterMap (fun e => (isCanonicalIndex e.1).map (fun n => (n, e)))
      = [] := by
    rw [List.filterMap_eq_nil_iff]
    intro e he
    rw [hnone e he]
    rfl
  have h2 : g.filter (fun e => (isCanonicalIndex e.1).isNone) = g := by
    rw [List.filter_eq_self]
    intro e he
    rw [hnone e he]
    rfl
  rw [h1, h2]
  rfl

/-- Claim C1 (amended): for every batch whose category labels are plain
object keys (no canonical array-index strings, no `Object.prototype`
property names), the summary builder renders categories in first-seen
order, upper-cased headers over bulleted content lines in original order,
groups joined by blank lines — i.e. it agrees with the claim's own
rendering. -/
theorem summary_builder_plain_first_seen (ms : List MemoryRecord)
    (h : ∀ r ∈ ms, plainKey r.category = true) :
    buildSummaryBody ms = Except.ok (specSummaryBody ms) := by
  have hg : groupByCategory ms = Except.ok (specGroup ms) :=
    groupBy_plain ms h []
  unfold buildSummaryBody
  rw [hg]
  show Except.ok (String.intercalate "\n\n"
      ((jsEntries (specGroup ms)).map renderGroup)) = _
  rw [jsEntries_plain (specGroup ms) (specGroup_plain_keys ms h)]
  rfl

/-- Witness for C1 at the claim's own example batch: the hypothesis holds
and the body renders exactly as the claim states. -/
theorem summary_builder_plain_first_seen_witness :
    (∀ r ∈ ([⟨"work", "uses Go"⟩, ⟨"prefs", "likes dark mode"⟩,
        ⟨"work", "remote"⟩] : List MemoryRecord), plainKey r.category = true) ∧
    buildSummaryBody [⟨"work", "uses Go"⟩, ⟨"prefs", "likes dark mode"⟩,
        ⟨"work", "remote"⟩] =
      Except.ok "WORK:\n- uses Go\n- remote\n\nPREFS:\n- likes dark mode" :=
  ⟨by decide, summary_builder_plain_first_seen _ (by decide)⟩

/-- Counterexample to C1 as stated: with the array-index categories "2" and
"1", `Object.entries` yields numeric order, not first-seen order; and a
category equal to the `Object.prototype` name "toString" makes the builder
throw instead of rendering a header. -/
theorem summary_builder_order_cex :
    buildSummaryBody [⟨"2", "a"⟩, ⟨"1", "b"⟩] =
      Except.ok "1:\n- b\n\n2:\n- a" ∧
    specSummaryBody [⟨"2", "a"⟩, ⟨"1", "b"⟩] = "2:\n- a\n\n1:\n- b" ∧
    buildSummaryBody [⟨"2", "a"⟩, ⟨"1", "b"⟩] ≠
      Except.ok (specSummaryBody [⟨"2", "a"⟩, ⟨"1", "b"⟩]) ∧
    buildSummaryBody [⟨"toString", "x"⟩] =
      Except.error "TypeError: byCategory is not a function" := by
  refine ⟨rfl, rfl, ?_, rfl⟩
  intro hcontra
  have : ("1:\n- b\n\n2:\n- a" : String) = "2:\n- a\n\n1:\n- b" := by
    have h1 : buildSummaryBody [⟨"2", "a"⟩, ⟨"1", "b"⟩] =
        Except.ok "1:\n- b\n\n2:\n- a" := rfl
    have h2 : specSummaryBody [⟨"2", "a"⟩, ⟨"1", "b"⟩] =
        "2:\n- a\n\n1:\n- b" := rfl
    rw [h1, h2] at hcontra
    exact Except.ok.inj hcontra
  simp at this

/-- Claim C2: whenever the fetched batch's memories list is empty, the REST
summary routes answer with the literal summary "No memories found", while
the JSON-RPC (`/message`) and `tools/call` summary variants embed an empty
categorized block inside their wrapper text. -/
theorem rest_summary_empty_literal (b : MemoryBatch) (s : Nat)
    (h : b.memories.getD [] = []) :
    summaryResp_v1 (.reply s (.ok b)) =
      .success 200 ⟨true, "No memories found", b.count.getD 0⟩ ∧
    summaryResp_p0 (.reply s (.ok b)) =
      .success 200 ⟨true, "No memories found", b.count.getD 0⟩ ∧
    summaryToolResp_p1 (.reply s (.ok b)) =
      .result (.content (.text ("User Memory Summary:\n\n" ++ "" ++
        "\n\nTotal memories: " ++ toString (b.count.getD 0)))) ∧
    summaryToolResp_v3 (.reply s (.ok b)) =
      .success 200 ("User Memory Summary:\n\n" ++ "" ++ "\n\nTotal: " ++
        toString (b.count.getD 0) ++ " memories") := by
  have hb : buildSummaryBody (b.memories.getD []) = Except.ok "" := by
    rw [h]
    rfl
  refine ⟨?_, ?_, ?_, ?_⟩ <;>
    simp [summaryResp_v1, summaryResp_p0, summaryToolResp_p1,
      summaryToolResp_v3, hb]

/-- Witness for C2 at an upstream reply with an empty batch. -/
theorem rest_summary_empty_literal_witness :
    ((⟨some 0, some []⟩ : MemoryBatch).memories.getD [] = []) ∧
    (summaryResp_v1 (.reply 200 (.ok ⟨some 0, some []⟩)) =
      .success 200 ⟨true, "No memories found", 0⟩ ∧
    summaryResp_p0 (.reply 200 (.ok ⟨some 0, some []⟩)) =
      .success 200 ⟨true, "No memories found", 0⟩ ∧
    summaryToolResp_p1 (.reply 200 (.ok ⟨some 0, some []⟩)) =
      .result (.content
        (.text "User Memory Summary:\n\n\n\nTotal memories: 0")) ∧
    summaryToolResp_v3 (.reply 200 (.ok ⟨some 0, some []⟩)) =
      .success 200 "User Memory Summary:\n\n\n\nTotal: 0 memories") :=
  ⟨rfl, rest_summary_empty_literal ⟨some 0, some []⟩ 200 rfl⟩

/-- Counterexample to C3 as stated: the v1 REST search route, given an
empty `q`, still consults the upstream — with a healthy upstream it answers
200 `{success:true,...}` and with a failing transport it answers 500, so no
InvalidArgument/400 rejection happens and a network request is issued. -/
theorem search_empty_query_reaches_upstream_cex :
    searchRoute_v1 "u" (some "") upOkEmpty =
      .success 200 ⟨true, some "", 0, []⟩ ∧
    searchRoute_v1 "u" (some "") upNetX =
      .failure 500 ⟨none, "ECONNREFUSED"⟩ :=
  ⟨rfl, rfl⟩

/-- Claim C3 (amended): only the p0 adapter validates the search query —
with `q` empty or missing it answers 400 `{success:false, error}` for every
upstream oracle, issuing no upstream call; the other adapters forward the
search to the upstream even with an empty or missing query. -/
theorem search_empty_query_validation_amended (uid : String)
    (q : Option String) (args : ToolArgs) (up : UpstreamReq → UpstreamResult)
    (h : q.getD "" = "") :
    searchRoute_p0 uid q up =
      .failure 400 ⟨some false, "Missing query parameter: q"⟩ ∧
    searchRoute_v1 uid q up = searchResp_v1 q (up (.search q (some uid))) ∧
    callTool_v2 "search_memories" args up =
      searchToolResp_v2 (up (.search args.query args.user_id)) ∧
    messageHandler_p1 "tools/call" "search_memories" args up =
      searchToolResp_p1 (up (.search args.query args.user_id)) ∧
    toolsCall_v3 "search_memories" args up =
      searchToolResp_v3 (up (.search args.query args.user_id)) := by
  refine ⟨?_, rfl, rfl, rfl, rfl⟩
  simp [searchRoute_p0, h]

/-- Witness for C3 (amended) at the empty query. -/
theorem search_empty_query_validation_amended_witness :
    ((some "" : Option String).getD "" = "") ∧
    (searchRoute_p0 "u" (some "") upNetX =
      .failure 400 ⟨some false, "Missing query parameter: q"⟩ ∧
    searchRoute_v1 "u" (some "") upNetX =
      searchResp_v1 (some "") (upNetX (.search (some "") (some "u"))) ∧
    callTool_v2 "search_memories" argsEmptyQ upNetX =
      searchToolResp_v2 (upNetX (.search argsEmptyQ.query argsEmptyQ.user_id)) ∧
    messageHandler_p1 "tools/call" "search_memories" argsEmptyQ upNetX =
      searchToolResp_p1 (upNetX (.search argsEmptyQ.query argsEmptyQ.user_id)) ∧
    toolsCall_v3 "search_memories" argsEmptyQ upNetX =
      searchToolResp_v3 (upNetX (.search argsEmptyQ.query argsEmptyQ.user_id))) :=
  ⟨rfl, search_empty_query_validation_amended "u" (some "") argsEmptyQ upNetX rfl⟩

/-- Counterexample to C4 as stated: an upstream 404 whose JSON body parses
as an empty batch is not mapped to any failure — the v1 summary route
answers 200 `{success:true, summary:"No memories found"}`. -/
theorem upstream_non2xx_success_cex :
    summaryRoute_v1 "u" upOk404 =
      .success 200 ⟨true, "No memories found", 0⟩ :=
  rfl

/-- Claim C4 (amended): no adapter inspects the upstream HTTP status — the
response mapping of every operation is independent of the status code, so
a non-2xx reply whose body parses as JSON is processed exactly like a 2xx
one; a failure arises only from a transport throw or a JSON parse throw,
and it carries the thrown message, not the status. -/
theorem upstream_status_ignored (s s' : Nat) (body : Except String MemoryBatch)
    (q : Option String) (user : Option String) :
    summaryResp_v1 (.reply s body) = summaryResp_v1 (.reply s' body) ∧
    summaryResp_p0 (.reply s body) = summaryResp_p0 (.reply s' body) ∧
    searchResp_v1 q (.reply s body) = searchResp_v1 q (.reply s' body) ∧
    searchResp_p0 q (.reply s body) = searchResp_p0 q (.reply s' body) ∧
    memoriesResp_v1 (.reply s body) = memoriesResp_v1 (.reply s' body) ∧
    memoriesResp_p0 (.reply s body) = memoriesResp_p0 (.reply s' body) ∧
    recentToolResp_p1 (.reply s body) = recentToolResp_p1 (.reply s' body) ∧
    searchToolResp_p1 (.reply s body) = searchToolResp_p1 (.reply s' body) ∧
    summaryToolResp_p1 (.reply s body) = summaryToolResp_p1 (.reply s' body) ∧
    recentToolResp_v2 (.reply s body) = recentToolResp_v2 (.reply s' body) ∧
    searchToolResp_v2 (.reply s body) = searchToolResp_v2 (.reply s' body) ∧
    summaryToolResp_v2 user (.reply s body) =
      summaryToolResp_v2 user (.reply s' body) ∧
    summaryToolResp_v3 (.reply s body) = summaryToolResp_v3 (.reply s' body) ∧
    searchToolResp_v3 (.reply s body) = searchToolResp_v3 (.reply s' body) ∧
    recentToolResp_v3 (.reply s body) = recentToolResp_v3 (.reply s' body) ∧
    apiToolsSummaryResp_v3 (.reply s body) =
      apiToolsSummaryResp_v3 (.reply s' body) := by
  cases body <;>
    exact ⟨rfl, rfl, rfl, rfl, rfl, rfl, rfl, rfl, rfl, rfl, rfl, rfl, rfl,
      rfl, rfl, rfl⟩

/-- Counterexample to C5 as stated: on a network throw the v1 summary route
does answer 500, but its body is a bare `{error}` — the `success` field the
claim requires is absent. -/
theorem rest_network_error_body_cex :
    summaryRoute_v1 "u" upNetX = .failure 500 ⟨none, "ECONNREFUSED"⟩ ∧
    (ErrBody.mk none "ECONNREFUSED").success ≠ some false :=
  ⟨rfl, by decide⟩

/-- Claim C5 (amended): every REST route answers HTTP 500 — never a 2xx —
when the upstream fetch throws; the p0 routes write
`{success:false, error: msg}`, while the v1 routes write `{error: msg}`
with no `success` key. -/
theorem rest_network_error_500_amended (msg uid : String)
    (q limit : Option String) (h : q.getD "" ≠ "") :
    summaryRoute_v1 uid (fun _ => .netError msg) =
      .failure 500 ⟨none, msg⟩ ∧
    searchRoute_v1 uid q (fun _ => .netError msg) =
      .failure 500 ⟨none, msg⟩ ∧
    memoriesRoute_v1 uid limit (fun _ => .netError msg) =
      .failure 500 ⟨none, msg⟩ ∧
    summaryRoute_p0 uid (fun _ => .netError msg) =
      .failure 500 ⟨some false, msg⟩ ∧
    searchRoute_p0 uid q (fun _ => .netError msg) =
      .failure 500 ⟨some false, msg⟩ ∧
    memoriesRoute_p0 uid limit (fun _ => .netError msg) =
      .failure 500 ⟨some false, msg⟩ := by
  refine ⟨rfl, rfl, rfl, rfl, ?_, rfl⟩
  simp [searchRoute_p0, searchResp_p0, h]

/-- Witness for C5 (amended) at a concrete network error. -/
theorem rest_network_error_500_amended_witness :
    ((some "go" : Option String).getD "" ≠ "") ∧
    (summaryRoute_v1 "u" (fun _ => .netError "ECONNREFUSED") =
      .failure 500 ⟨none, "ECONNREFUSED"⟩ ∧
    searchRoute_v1 "u" (some "go") (fun _ => .netError "ECONNREFUSED") =
      .failure 500 ⟨none, "ECONNREFUSED"⟩ ∧
    memoriesRoute_v1 "u" none (fun _ => .netError "ECONNREFUSED") =
      .failure 500 ⟨none, "ECONNREFUSED"⟩ ∧
    summaryRoute_p0 "u" (fun _ => .netError "ECONNREFUSED") =
      .failure 500 ⟨some false, "ECONNREFUSED"⟩ ∧
    searchRoute_p0 "u" (some "go") (fun _ => .netError "ECONNREFUSED") =
      .failure 500 ⟨some false, "ECONNREFUSED"⟩ ∧
    memoriesRoute_p0 "u" none (fun _ => .netError "ECONNREFUSED") =
      .failure 500 ⟨some false, "ECONNREFUSED"⟩) :=
  ⟨by decide,
    rest_network_error_500_amended "ECONNREFUSED" "u" (some "go") none
      (by decide)⟩

/-- Counterexample to C6 as stated: the simplified `POST /tools/call`
adapter answers an unrecognized tool name with the HTTP-level error status
500 and a bare `{error}` body, not with a JSON-RPC error object or an
`isError:true` result. -/
theorem unknown_tool_http_500_cex :
    toolsCall_v3 "bogus" argsNone upNetX =
      .failure 500 ⟨none, "Unknown tool: bogus"⟩ :=
  rfl

/-- Claim C6 (amended): the JSON-RPC adapters stay in-band — p1's
`/message` answers an unknown tool or unknown method with a JSON-RPC error
object `{code: -32603, message}` at HTTP 200, and the stdio adapter
answers an unknown tool with an `isError:true` content result — while the
simplified HTTP `tools/call` adapter instead answers HTTP 500 `{error}`. -/
theorem unknown_dispatch_amended (method name : String) (args : ToolArgs)
    (up : UpstreamReq → UpstreamResult)
    (hn1 : name ≠ "get_user_memories") (hn2 : name ≠ "search_memories")
    (hn3 : name ≠ "get_memory_summary") (hm1 : method ≠ "initialize")
    (hm2 : method ≠ "tools/list") (hm3 : method ≠ "tools/call") :
    messageHandler_p1 "tools/call" name args up =
      .rpcError (-32603) ("Unknown tool: " ++ name) ∧
    messageHandler_p1 method name args up =
      .rpcError (-32603) ("Unknown method: " ++ method) ∧
    callTool_v2 name args up = ⟨.text ("Unknown tool: " ++ name), true⟩ ∧
    toolsCall_v3 name args up =
      .failure 500 ⟨none, "Unknown tool: " ++ name⟩ := by
  refine ⟨?_, ?_, ?_, ?_⟩ <;>
    simp [messageHandler_p1, callTool_v2, toolsCall_v3, hn1, hn2, hn3,
      hm1, hm2, hm3]

/-- Witness for C6 (amended) at method "ping" and tool "bogus". -/
theorem unknown_dispatch_amended_witness :
    ("bogus" ≠ "get_user_memories") ∧ ("bogus" ≠ "search_memories") ∧
    ("bogus" ≠ "get_memory_summary") ∧ ("ping" ≠ "initialize") ∧
    ("ping" ≠ "tools/list") ∧ ("ping" ≠ "tools/call") ∧
    (messageHandler_p1 "tools/call" "bogus" argsNone upNetX =
      .rpcError (-32603) "Unknown tool: bogus" ∧
    messageHandler_p1 "ping" "bogus" argsNone upNetX =
      .rpcError (-32603) "Unknown method: ping" ∧
    callTool_v2 "bogus" argsNone upNetX =
      ⟨.text "Unknown tool: bogus", true⟩ ∧
    toolsCall_v3 "bogus" argsNone upNetX =
      .failure 500 ⟨none, "Unknown tool: bogus"⟩) :=
  ⟨by decide, by decide, by decide, by decide, by decide, by decide,
    unknown_dispatch_amended "ping" "bogus" argsNone upNetX (by decide)
      (by decide) (by decide) (by decide) (by decide) (by decide)⟩

/-- Claim C7: in every adapter the summary operation fetches the recent
batch with `limit=50` (its one upstream interaction), while the
list-memories operations fetch with the caller's limit, defaulting to 20. -/
theorem fetch_limit_constants (uid l : String) (n : Nat)
    (args args' : ToolArgs) (params : ApiToolsParams)
    (up : UpstreamReq → UpstreamResult)
    (hdef : args.limit = none) (hlim : args'.limit = some n) :
    summaryRoute_v1 uid up = summaryResp_v1 (up (.recent (some uid) "50")) ∧
    summaryRoute_p0 uid up = summaryResp_p0 (up (.recent (some uid) "50")) ∧
    messageHandler_p1 "tools/call" "get_memory_summary" args up =
      summaryToolResp_p1 (up (.recent args.user_id "50")) ∧
    callTool_v2 "get_memory_summary" args up =
      summaryToolResp_v2 args.user_id (up (.recent args.user_id "50")) ∧
    toolsCall_v3 "get_memory_summary" args up =
      summaryToolResp_v3 (up (.recent args.user_id "50")) ∧
    apiTools_v3 "get_memory_summary" params up =
      apiToolsSummaryResp_v3
        (up (.recent (jsOrStr params.user_id params.userId) "50")) ∧
    memoriesRoute_v1 uid none up =
      memoriesResp_v1 (up (.recent (some uid) "20")) ∧
    memoriesRoute_v1 uid (some l) up =
      memoriesResp_v1 (up (.recent (some uid) l)) ∧
    memoriesRoute_p0 uid none up =
      memoriesResp_p0 (up (.recent (some uid) "20")) ∧
    memoriesRoute_p0 uid (some l) up =
      memoriesResp_p0 (up (.recent (some uid) l)) ∧
    messageHandler_p1 "tools/call" "get_user_memories" args up =
      recentToolResp_p1 (up (.recent args.user_id "20")) ∧
    messageHandler_p1 "tools/call" "get_user_memories" args' up =
      recentToolResp_p1 (up (.recent args'.user_id (toString n))) ∧
    callTool_v2 "get_user_memories" args up =
      recentToolResp_v2 (up (.recent args.user_id "20")) ∧
    toolsCall_v3 "get_user_memories" args up =
      recentToolResp_v3 (up (.recent args.user_id "20")) := by
  refine ⟨rfl, rfl, rfl, rfl, rfl, rfl, rfl, rfl, rfl, rfl, ?_, ?_, ?_, ?_⟩
  · show recentToolResp_p1
        (up (.recent args.user_id (toString (args.limit.getD 20)))) = _
    rw [hdef]
    rfl
  · show recentToolResp_p1
        (up (.recent args'.user_id (toString (args'.limit.getD 20)))) = _
    rw [hlim]
    rfl
  · show recentToolResp_v2
        (up (.recent args.user_id (toString (args.limit.getD 20)))) = _
    rw [hdef]
    rfl
  · show recentToolResp_v3
        (up (.recent args.user_id (toString (args.limit.getD 20)))) = _
    rw [hdef]
    rfl

/-- Witness for C7 at concrete arguments. -/
theorem fetch_limit_constants_witness :
    (argsNone.limit = none) ∧ (args7.limit = some 7) ∧
    (summaryRoute_v1 "u" upNetX =
      summaryResp_v1 (upNetX (.recent (some "u") "50")) ∧
    summaryRoute_p0 "u" upNetX =
      summaryResp_p0 (upNetX (.recent (some "u") "50")) ∧
    messageHandler_p1 "tools/call" "get_memory_summary" argsNone upNetX =
      summaryToolResp_p1 (upNetX (.recent argsNone.user_id "50")) ∧
    callTool_v2 "get_memory_summary" argsNone upNetX =
      summaryToolResp_v2 argsNone.user_id
        (upNetX (.recent argsNone.user_id "50")) ∧
    toolsCall_v3 "get_memory_summary" argsNone upNetX =
      summaryToolResp_v3 (upNetX (.recent argsNone.user_id "50")) ∧
    apiTools_v3 "get_memory_summary" paramsNone upNetX =
      apiToolsSummaryResp_v3
        (upNetX (.recent (jsOrStr paramsNone.user_id paramsNone.userId)
          "50")) ∧
    memoriesRoute_v1 "u" none upNetX =
      memoriesResp_v1 (upNetX (.recent (some "u") "20")) ∧
    memoriesRoute_v1 "u" (some "5") upNetX =
      memoriesResp_v1 (upNetX (.recent (some "u") "5")) ∧
    memoriesRoute_p0 "u" none upNetX =
      memoriesResp_p0 (upNetX (.recent (some "u") "20")) ∧
    memoriesRoute_p0 "u" (some "5") upNetX =
      memoriesResp_p0 (upNetX (.recent (some "u") "5")) ∧
    messageHandler_p1 "tools/call" "get_user_memories" argsNone upNetX =
      recentToolResp_p1 (upNetX (.recent argsNone.user_id "20")) ∧
    messageHandler_p1 "tools/call" "get_user_memories" args7 upNetX =
      recentToolResp_p1 (upNetX (.recent args7.user_id (toString 7))) ∧
    callTool_v2 "get_user_memories" argsNone upNetX =
      recentToolResp_v2 (upNetX (.recent argsNone.user_id "20")) ∧
    toolsCall_v3 "get_user_memories" argsNone upNetX =
      recentToolResp_v3 (upNetX (.recent argsNone.user_id "20"))) :=
  ⟨rfl, rfl,
    fetch_limit_constants "u" "5" 7 argsNone args7 paramsNone upNetX rfl rfl⟩

/-- Claim C8: the category filter route returns exactly the records of the
fetched batch whose category equals the path parameter — exact,
case-sensitive string equality, no partial matches.  The route itself is
modelled from the spec (see `categoryRoute`). -/
theorem category_route_exact_match (category : String) (b : MemoryBatch)
    (r : MemoryRecord) :
    r ∈ categoryRoute category b ↔
      r ∈ b.memories.getD [] ∧ r.category = category := by
  simp [categoryRoute, List.mem_filter]

theorem sseStep_writes_good (s : SseConn) (e : SseEnv)
    (h : goodWrites s.writes) : goodWrites (sseStep s e).writes := by
  obtain ⟨ks, hks, hall⟩ := h
  cases e with
  | tick =>
    by_cases ht : s.timerActive = true
    · refine ⟨ks ++ [SseWrite.keepAlive], ?_, ?_⟩
      · simp [sseStep, ht, hks]
      · intro w hw
        rcases List.mem_append.mp hw with hw' | hw'
        · exact hall w hw'
        · simpa using hw'
    · exact ⟨ks, by simp [sseStep, ht, hks], hall⟩
  | close => exact ⟨ks, by simp [sseStep, hks], hall⟩

theorem sseRun_goodWrites (evs : List SseEnv) :
    goodWrites (sseRun evs).writes := by
  suffices h : ∀ s, goodWrites s.writes →
      goodWrites (evs.foldl sseStep s).writes by
    refine h sseOpen ⟨[], rfl, ?_⟩
    intro w hw
    cases hw
  induction evs with
  | nil => intro s hs; exact hs
  | cons e t ih => intro s hs; exact ih (sseStep s e) (sseStep_writes_good s e hs)

theorem sseSteps_frozen (post : List SseEnv) :
    ∀ s : SseConn, s.timerActive = false → s.registered = false →
      (post.foldl sseStep s).writes = s.writes ∧
      (post.foldl sseStep s).registered = false ∧
      (post.foldl sseStep s).timerActive = false := by
  induction post with
  | nil => intro s h1 h2; exact ⟨rfl, h2, h1⟩
  | cons e t ih =>
    intro s h1 h2
    have hstep : (sseStep s e).writes = s.writes ∧
        (sseStep s e).registered = false ∧
        (sseStep s e).timerActive = false := by
      cases e with
      | tick => simp [sseStep, h1, h2]
      | close => simp [sseStep]
    have hrest := ih (sseStep s e) hstep.2.2 hstep.2.1
    exact ⟨hrest.1.trans hstep.1, hrest.2.1, hrest.2.2⟩

/-- Claim C9: for each SSE connection of p1, every reachable write log is
the single `initialized` event followed only by keep-alive comments (so
exactly one `initialized` event is written, before any keep-alive); after
the client disconnect the connection is out of the registry and no event
sequence produces any further write; and the keep-alive timer period is
the fixed 15000 ms of the source. -/
theorem sse_lifecycle (evs pre post : List SseEnv) :
    goodWrites (sseRun evs).writes ∧
    (sseRun (pre ++ SseEnv.close :: post)).registered = false ∧
    (sseRun (pre ++ SseEnv.close :: post)).writes =
      (sseRun (pre ++ [SseEnv.close])).writes ∧
    keepAliveIntervalMs = 15000 := by
  have hsplit : sseRun (pre ++ SseEnv.close :: post) =
      post.foldl sseStep (sseStep (sseRun pre) SseEnv.close) := by
    unfold sseRun
    rw [List.foldl_append]
    rfl
  have hone : sseRun (pre ++ [SseEnv.close]) =
      sseStep (sseRun pre) SseEnv.close := by
    unfold sseRun
    rw [List.foldl_append]
    rfl
  have hfrozen := sseSteps_frozen post (sseStep (sseRun pre) SseEnv.close)
    rfl rfl
  refine ⟨sseRun_goodWrites evs, ?_, ?_, rfl⟩
  · rw [hsplit]
    exact hfrozen.2.1
  · rw [hsplit, hone]
    exact hfrozen.1

/-- Claim C10: any `POST /api/tools` action other than the two summary
spellings is silently accepted — HTTP 200 `{success:true}` with no `data`
key, not an UnknownOperation error. -/
theorem api_tools_unknown_action_success (action : String)
    (params : ApiToolsParams) (up : UpstreamReq → UpstreamResult)
    (h1 : action ≠ "get_memory_summary") (h2 : action ≠ "getMemorySummary") :
    apiTools_v3 action params up = .success 200 ⟨true, none⟩ := by
  simp [apiTools_v3, h1, h2]

/-- Witness for C10 at the action "search_memories". -/
theorem api_tools_unknown_action_success_witness :
    ("search_memories" ≠ "get_memory_summary") ∧
    ("search_memories" ≠ "getMemorySummary") ∧
    apiTools_v3 "search_memories" ⟨none, none⟩ upNetX =
      .success 200 ⟨true, none⟩ :=
  ⟨by decide, by decide,
    api_tools_unknown_action_success "search_memories" ⟨none, none⟩ upNetX
      (by decide) (by decide)⟩
